import Mathlib

/-!
Shallow embedding of the NODE_MCU IoT sensor-data server (src/server.js):
the ingestion pipeline behind POST /api/data, the in-memory stores
(devices, sensorData, connectionLogs) with their capacity eviction, and
the query/cleanup endpoints.  Timestamps are modelled as naturals,
JavaScript numbers as rationals, and JSON payload fields as optional
JS-like values so that JavaScript truthiness and parseFloat semantics
can be stated faithfully.
-/

namespace NodeMcu

/-- JS-like value of a loosely typed JSON payload field: a number, a
string, or null.  (Other JSON shapes do not occur in the modelled
payloads; NaN never arises because parse failures are represented by
Option.none.) -/
inductive JsVal where
  | jnum (q : ℚ)
  | jstr (s : String)
  | jnull
deriving DecidableEq, Repr

/-- JavaScript truthiness of a JsVal: 0, the empty string and null are
falsy, everything else is truthy. -/
def JsVal.truthy : JsVal → Bool
  | .jnum q => decide (q ≠ 0)
  | .jstr s => !s.isEmpty
  | .jnull => false

/-- JavaScript truthiness of an optional string field: undefined and the
empty string are falsy. -/
def strTruthy : Option String → Bool
  | some s => !s.isEmpty
  | none => false

/-- Underlying string of an optional string field (the empty string for
undefined; only used on fields already known to be truthy). -/
def strOf : Option String → String
  | some s => s
  | none => ""

/-- Numeric value of the digit characters of a decimal digit run. -/
def digitsToNat (ds : List Char) : Nat :=
  ds.foldl (fun a c => a * 10 + (c.toNat - 48)) 0

/-- Core of JavaScript parseFloat on a string: an optional sign followed
by a decimal digit run with at most one dot; the longest numeric prefix
is taken and the rest ignored; none models NaN (no digits consumed).
Whitespace skipping and exponent/Infinity forms of the builtin are not
used by any modelled input and are omitted. -/
def parseFloatStr (s : String) : Option ℚ :=
  let cs := s.data
  let signed : ℚ × List Char :=
    match cs with
    | '-' :: rest => (-1, rest)
    | '+' :: rest => (1, rest)
    | _ => (1, cs)
  let ip := signed.2.takeWhile Char.isDigit
  let rest1 := signed.2.dropWhile Char.isDigit
  match rest1 with
  | '.' :: rest2 =>
    let fp := rest2.takeWhile Char.isDigit
    if ip.isEmpty && fp.isEmpty then none
    else some (signed.1 * ((digitsToNat ip : ℚ) + (digitsToNat fp : ℚ) / ((10 : ℚ) ^ fp.length)))
  | _ => if ip.isEmpty then none else some (signed.1 * (digitsToNat ip : ℚ))

/-- JavaScript parseFloat applied to a payload field value: numbers pass
through, strings are parsed, null parses to NaN (none). -/
def parseFloatJS : JsVal → Option ℚ
  | .jnum q => some q
  | .jstr s => parseFloatStr s
  | .jnull => none

/-- Device metadata as stored in the devices object (src/server.js lines
30-42 and 164-174).  The pre-registered devices carry no autoRegistered
field, modelled as false. -/
structure Device where
  name : String
  location : String
  registeredAt : Nat
  autoRegistered : Bool
deriving DecidableEq, Repr

/-- Timestamp stored in a reading: either the device-supplied ts value
(kept verbatim when truthy) or the server receipt time. -/
inductive TsVal where
  | device (v : JsVal)
  | server (t : Nat)
deriving DecidableEq, Repr

/-- Stored sensor reading (the entry built at src/server.js lines
176-187). -/
structure Reading where
  id : String
  device_id : String
  device_meta : Device
  sensor : String
  temperature : ℚ
  humidity : ℚ
  timestamp : TsVal
  received_at : Nat
  client_ip : String
deriving DecidableEq, Repr

/-- Connection log record built by logConnection (src/server.js lines
48-65); apiKey is the 'Present'/'Missing' marker derived from the
truthiness of the x-api-key header. -/
structure LogEntry where
  timestamp : Nat
  ip : String
  userAgent : String
  status : String
  message : String
  apiKey : String
deriving DecidableEq, Repr

/-- Request body of POST /api/data; every field is optional because the
handler destructures a dynamic JSON object. -/
structure Payload where
  device_id : Option String
  device_name : Option String
  sensor : Option String
  temperature : Option JsVal
  humidity : Option JsVal
  ts : Option JsVal
deriving DecidableEq, Repr

/-- In-memory server state: the devices registry, the sensorData buffer
and the connectionLogs buffer. -/
structure ServerState where
  devices : List (String × Device)
  sensorData : List Reading
  connectionLogs : List LogEntry
deriving DecidableEq, Repr

/-- Push x at the tail and drop the head when the capacity cap is
exceeded — the `push` then conditional `shift()` pattern used for both
sensorData (cap 1000, lines 189-195) and connectionLogs (cap 100, lines
57-62). -/
def pushCap (cap : Nat) (xs : List α) (x : α) : List α :=
  let ys := xs ++ [x]
  if cap < ys.length then ys.tail else ys

/-- ConnectionLog.record: append a log entry, evicting the oldest past
capacity 100 (logConnection, src/server.js lines 57-62). -/
def record (logs : List LogEntry) (e : LogEntry) : List LogEntry :=
  pushCap 100 logs e

/-- Log entry built by logConnection for the current request. -/
def mkLog (credential : Option String) (now : Nat) (clientIP userAgent status msg : String) :
    LogEntry :=
  { timestamp := now, ip := clientIP, userAgent := userAgent, status := status,
    message := msg, apiKey := if strTruthy credential then "Present" else "Missing" }

/-- Record a list of log entries into the server state, in order. -/
def applyLogs (st : ServerState) (es : List LogEntry) : ServerState :=
  { st with connectionLogs := es.foldl record st.connectionLogs }

/-- Result of a submit, mirroring the response taxonomy of POST
/api/data: 401 Unauthenticated, 400 InvalidPayload, 200 success carrying
entry_id, device_id and the receipt timestamp. -/
inductive IngestResult where
  | unauthenticated (msg : String)
  | invalidPayload (msg : String)
  | success (entry_id : String) (device_id : String) (timestamp : Nat)
deriving DecidableEq, Repr

/-- HTTP status code attached to each result kind by the handler. -/
def IngestResult.status : IngestResult → Nat
  | .unauthenticated _ => 401
  | .invalidPayload _ => 400
  | .success _ _ _ => 200

/-- True exactly on the success result. -/
def IngestResult.isOk : IngestResult → Bool
  | .success _ _ _ => true
  | _ => false

/-- True exactly on the InvalidPayload result. -/
def IngestResult.isInvalid : IngestResult → Bool
  | .invalidPayload _ => true
  | _ => false

/-- Outcome of one submit call: the structured result, the new server
state, and the list of connection-log records appended by this call (in
order). -/
structure SubmitOut where
  result : IngestResult
  state : ServerState
  logged : List LogEntry
deriving DecidableEq, Repr

/-- Startup environment validation (src/server.js lines 24-27): the
process exits unless API_KEY is set (JS truthiness: unset or empty means
exit).  Returns whether the server starts. -/
def startupOk (apiKey : Option String) : Bool :=
  strTruthy apiKey

/-- The pre-registered devices object (src/server.js lines 30-42);
startTime stands for the new Date() taken at module load. -/
def initialDevices (startTime : Nat) : List (String × Device) :=
  [("DEADBEEF0001",
    { name := "Greenhouse_Node_1", location := "Greenhouse-01",
      registeredAt := startTime, autoRegistered := false }),
   ("C4D8D539D335",
    { name := "Greenhouse_Node_1", location := "Greenhouse-01",
      registeredAt := startTime, autoRegistered := false })]

/-- POST /api/data handler (src/server.js lines 105-216).  apiKeyConfig
is the API_KEY environment value, credential the x-api-key header, now
the server clock (used for Date.now and every new Date of the request),
and rnd the random id suffix.  Follows the source order: truthiness
check of the header, exact comparison against API_KEY, truthiness check
of device_id and sensor plus undefined check of temperature and
humidity, parseFloat with NaN check, non-fatal range warning,
auto-registration of unknown devices, entry construction with ts
truthiness fallback, capacity-bounded store, and a log record on every
path. -/
def submit (apiKeyConfig credential : Option String) (p : Payload)
    (clientIP userAgent : String) (now : Nat) (rnd : String)
    (st : ServerState) : SubmitOut :=
  if !strTruthy credential then
    let e := mkLog credential now clientIP userAgent "ERROR" "Missing API key"
    ⟨.unauthenticated "Missing API key", applyLogs st [e], [e]⟩
  else if apiKeyConfig ≠ some (strOf credential) then
    let e := mkLog credential now clientIP userAgent "ERROR" "Invalid API key"
    ⟨.unauthenticated "Invalid API key", applyLogs st [e], [e]⟩
  else if !strTruthy p.device_id || !strTruthy p.sensor
      || p.temperature.isNone || p.humidity.isNone then
    let e := mkLog credential now clientIP userAgent "ERROR" "Missing required fields"
    ⟨.invalidPayload "Missing required fields", applyLogs st [e], [e]⟩
  else
    match p.temperature.bind parseFloatJS, p.humidity.bind parseFloatJS with
    | some temp, some hum =>
      let dId := strOf p.device_id
      let warnLogs :=
        if temp < -50 ∨ 100 < temp ∨ hum < 0 ∨ 100 < hum then
          [mkLog credential now clientIP userAgent "WARNING" "Data outside expected ranges"]
        else []
      let reg :=
        match List.lookup dId st.devices with
        | some dev => (st.devices, ([] : List LogEntry), dev)
        | none =>
          let newDev : Device :=
            { name := if strTruthy p.device_name then strOf p.device_name
                      else "Device-" ++ dId,
              location := "Unknown", registeredAt := now, autoRegistered := true }
          ((dId, newDev) :: st.devices,
           [mkLog credential now clientIP userAgent "INFO" ("New device registered: " ++ dId)],
           newDev)
      let entry : Reading :=
        { id := toString now ++ rnd, device_id := dId, device_meta := reg.2.2,
          sensor := strOf p.sensor, temperature := temp, humidity := hum,
          timestamp :=
            match p.ts with
            | some v => if v.truthy then TsVal.device v else TsVal.server now
            | none => TsVal.server now,
          received_at := now, client_ip := clientIP }
      let sLog := mkLog credential now clientIP userAgent "SUCCESS"
        ("Data received from " ++ dId)
      let logged := warnLogs ++ reg.2.1 ++ [sLog]
      ⟨.success entry.id dId now,
       { devices := reg.1, sensorData := pushCap 1000 st.sensorData entry,
         connectionLogs := logged.foldl record st.connectionLogs },
       logged⟩
    | _, _ =>
      let e := mkLog credential now clientIP userAgent "ERROR" "Invalid data types"
      ⟨.invalidPayload "Invalid data types", applyLogs st [e], [e]⟩

/-- Response of GET /api/data (src/server.js lines 233-261). -/
structure QueryResult where
  total : Nat
  returned : Nat
  offset : Nat
  limit : Nat
  data : List Reading
deriving DecidableEq, Repr

/-- GET /api/data handler (src/server.js lines 233-261): optional
truthy device_id filter by exact match, offset/limit pagination with the
limit clamped to 500, page reversed so the most recent reading comes
first, total reporting the filtered count. -/
def listReadings (sensorData : List Reading) (device_id : Option String)
    (offset limit : Nat) : QueryResult :=
  let filteredData :=
    if strTruthy device_id then
      sensorData.filter (fun e => e.device_id = strOf device_id)
    else sensorData
  let limitNum := min limit 500
  let paginatedData := (filteredData.drop offset).take limitNum
  { total := filteredData.length, returned := paginatedData.length,
    offset := offset, limit := limitNum, data := paginatedData.reverse }

/-- DELETE /api/data/cleanup core (src/server.js lines 311-336) with the
cutoff timestamp already computed: keep exactly the readings received
strictly after the cutoff, and return the new store together with the
deleted count (original length minus remaining length). -/
def cleanupOlderThan (sensorData : List Reading) (cutoff : Nat) :
    List Reading × Nat :=
  let filteredData := sensorData.filter (fun e => cutoff < e.received_at)
  (filteredData, sensorData.length - filteredData.length)

/-- Modelled from the spec claim wording (refinement comparison, not
from the source): the filtered set of readings under an optional
exact-match device_id filter. -/
def specFiltered (sensorData : List Reading) (device_id : Option String) :
    List Reading :=
  match device_id with
  | some d => sensorData.filter (fun e => e.device_id = d)
  | none => sensorData

/-- Modelled from the spec claim wording (refinement comparison, not
from the source): submit fails with InvalidPayload exactly when one of
device_id, sensor, temperature, humidity is missing from the payload or
temperature/humidity fail to parse as numbers. -/
def specInvalidCond (p : Payload) : Bool :=
  p.device_id.isNone || p.sensor.isNone || p.temperature.isNone || p.humidity.isNone
  || (p.temperature.bind parseFloatJS).isNone || (p.humidity.bind parseFloatJS).isNone

/-- The condition under which the handler actually answers 400
InvalidPayload, read off the source: device_id or sensor missing or
empty (JS truthiness), temperature or humidity undefined, or parseFloat
yielding NaN on either. -/
def invalidCond (p : Payload) : Bool :=
  !strTruthy p.device_id || !strTruthy p.sensor
  || p.temperature.isNone || p.humidity.isNone
  || (p.temperature.bind parseFloatJS).isNone || (p.humidity.bind parseFloatJS).isNone

/-! Concrete inputs used by witnesses and counterexamples. -/

/-- Empty server state (no devices, readings or logs). -/
def emptyState : ServerState :=
  { devices := [], sensorData := [], connectionLogs := [] }

/-- Server state as at startup, with the pre-registered devices. -/
def stInit : ServerState :=
  { devices := initialDevices 5, sensorData := [], connectionLogs := [] }

/-- Sample stored reading for a given device and receipt time. -/
def demoReading (dev : String) (t : Nat) : Reading :=
  { id := "id-" ++ dev, device_id := dev,
    device_meta := { name := dev, location := "Unknown", registeredAt := 0,
                     autoRegistered := true },
    sensor := "dht11", temperature := 22, humidity := 55,
    timestamp := .server t, received_at := t, client_ip := "ip" }

/-- Sample valid request payload. -/
def demoPayload : Payload :=
  { device_id := some "DEV1", device_name := none, sensor := some "dht11",
    temperature := some (.jnum 22), humidity := some (.jnum 55), ts := none }

/-! Helper lemmas. -/

/-- Folding capacity-bounded pushes over a list, starting from a state
within capacity, keeps exactly the last cap elements of the combined
sequence. -/
theorem pushCap_foldl {α : Type} (cap : Nat) (hcap : 1 ≤ cap) (rs : List α) :
    ∀ s : List α, s.length ≤ cap →
      rs.foldl (pushCap cap) s = (s ++ rs).drop ((s ++ rs).length - cap) := by
  induction rs with
  | nil =>
    intro s hs
    simp [Nat.sub_eq_zero_of_le hs]
  | cons r rs ih =>
    intro s hs
    have hstep : List.foldl (pushCap cap) s (r :: rs)
        = List.foldl (pushCap cap) (pushCap cap s r) rs := rfl
    by_cases h1 : cap < s.length + 1
    · have hPush : pushCap cap s r = (s ++ [r]).tail := by
        simp [pushCap, h1]
      have hlen : s.length = cap := by omega
      cases s with
      | nil => simp at hlen; omega
      | cons a as =>
        have htail : ((a :: as) ++ [r]).tail = as ++ [r] := rfl
        rw [hstep, hPush, htail]
        rw [ih (as ++ [r]) (by simp at hlen ⊢; omega)]
        have hidx1 : ((as ++ [r]) ++ rs).length - cap = rs.length := by
          simp at hlen ⊢; omega
        have hidx2 : ((a :: as) ++ r :: rs).length - cap = rs.length + 1 := by
          simp at hlen ⊢; omega
        rw [hidx1, hidx2]
        have hlist : (as ++ [r]) ++ rs = as ++ r :: rs := by simp
        rw [hlist]
        rfl
    · have hPush : pushCap cap s r = s ++ [r] := by
        simp [pushCap, h1]
      have hlen : (s ++ [r]).length ≤ cap := by
        simp [List.length_append]
        omega
      rw [hstep, hPush, ih (s ++ [r]) hlen]
      have hlist : (s ++ [r]) ++ rs = s ++ r :: rs := by simp
      rw [hlist]

/-- The lengths of the parts of a list kept and dropped by a Boolean
filter add up to the length of the list. -/
theorem length_filter_add {α : Type} (p : α → Bool) (l : List α) :
    (l.filter p).length + (l.filter (fun a => !p a)).length = l.length := by
  induction l with
  | nil => rfl
  | cons a t ih =>
    cases h : p a <;> simp [List.filter_cons, h] <;> omega

/-! Claim theorems. -/

/-- C5: for every sequence of N appends to the reading store through the
push-then-shift eviction with capacity 1000, the final size is
min(N, 1000) and the contents are exactly the last 1000 appended
readings in insertion order; the connection log obeys the same FIFO
eviction law with capacity 100. -/
theorem claim_C5_fifo_eviction (rs : List Reading) (ls : List LogEntry) :
    (rs.foldl (pushCap 1000) []).length = min rs.length 1000
    ∧ rs.foldl (pushCap 1000) [] = rs.drop (rs.length - 1000)
    ∧ (ls.foldl (pushCap 100) []).length = min ls.length 100
    ∧ ls.foldl (pushCap 100) [] = ls.drop (ls.length - 100) := by
  have h1 := pushCap_foldl 1000 (by omega) rs [] (by simp)
  have h2 := pushCap_foldl 100 (by omega) ls [] (by simp)
  simp only [List.nil_append] at h1 h2
  refine ⟨?_, h1, ?_, h2⟩
  · rw [h1, List.length_drop]; omega
  · rw [h2, List.length_drop]; omega

/-- C3 counterexample: a reading whose receipt timestamp equals the
cutoff is removed by cleanupOlderThan (the code keeps only timestamps
strictly greater than the cutoff), while the claim says readings with
receipt timestamp equal to the cutoff are retained. -/
theorem claim_C3_counterexample :
    (cleanupOlderThan [demoReading "DEV1" 5] 5).1 = []
    ∧ (cleanupOlderThan [demoReading "DEV1" 5] 5).2 = 1
    ∧ (demoReading "DEV1" 5).received_at = 5 := by
  refine ⟨rfl, rfl, rfl⟩

/-- C3 amended: cleanupOlderThan removes exactly those readings whose
receipt timestamp is before or equal to the cutoff (readings strictly
after the cutoff are retained), and returns the number removed. -/
theorem claim_C3_amended (sensorData : List Reading) (cutoff : Nat) :
    (cleanupOlderThan sensorData cutoff).1
      = sensorData.filter (fun e => decide (cutoff < e.received_at))
    ∧ (cleanupOlderThan sensorData cutoff).2
      = (sensorData.filter (fun e => decide (e.received_at ≤ cutoff))).length := by
  refine ⟨rfl, ?_⟩
  have hadd := length_filter_add (fun e : Reading => decide (cutoff < e.received_at)) sensorData
  have hcongr : sensorData.filter (fun e => !decide (cutoff < e.received_at))
      = sensorData.filter (fun e => decide (e.received_at ≤ cutoff)) := by
    apply List.filter_congr
    intro x _
    by_cases h : cutoff < x.received_at
    · simp [h, Nat.le_of_lt, Nat.not_le_of_lt h]
    · simp [h, Nat.le_of_not_lt h]
  rw [hcongr] at hadd
  show sensorData.length
      - (sensorData.filter (fun e => decide (cutoff < e.received_at))).length
      = _
  omega

/-- C1 counterexample: with no shared secret configured (API_KEY
absent), a submit with no credential is still rejected with
Unauthenticated "Missing API key", and the startup validation refuses to
start the service at all — there is no open mode. -/
theorem claim_C1_counterexample :
    (submit none none demoPayload "ip" "ua" 0 "r" emptyState).result
      = IngestResult.unauthenticated "Missing API key"
    ∧ startupOk none = false := by
  refine ⟨rfl, rfl⟩

/-- C1 amended: there is no open mode — if no shared secret is
configured the startup validation fails (the process exits), and for
every configuration and payload the auth check rejects a credential-less
submit with Unauthenticated "Missing API key". -/
theorem claim_C1_amended (apiKeyConfig : Option String) (p : Payload)
    (ip ua : String) (now : Nat) (rnd : String) (st : ServerState) :
    (submit apiKeyConfig none p ip ua now rnd st).result
      = IngestResult.unauthenticated "Missing API key"
    ∧ startupOk none = false := by
  exact ⟨rfl, rfl⟩

/-- C4: for any store contents whose exact-match filtered set has size
F, listReadings with offset o and requested limit l reports total = F,
returns min(max(F-o,0), min(l,500)) readings (natural subtraction
realises the max), and the page is the o-offset slice from the oldest
end of the filtered set reversed so the newest matching reading comes
first.  The device_id filter, when given, is a nonempty identifier. -/
theorem claim_C4_pagination (sensorData : List Reading) (device_id : Option String)
    (o l : Nat) (hd : device_id ≠ some "") :
    (listReadings sensorData device_id o l).total
      = (specFiltered sensorData device_id).length
    ∧ (listReadings sensorData device_id o l).data.length
      = min ((specFiltered sensorData device_id).length - o) (min l 500)
    ∧ (listReadings sensorData device_id o l).data
      = (((specFiltered sensorData device_id).drop o).take (min l 500)).reverse := by
  have hfilt : (if strTruthy device_id then
        sensorData.filter (fun e => e.device_id = strOf device_id)
      else sensorData) = specFiltered sensorData device_id := by
    cases device_id with
    | none => simp [strTruthy, specFiltered]
    | some d =>
      have hde : d ≠ "" := fun h => hd (by rw [h])
      have : d.isEmpty = false := by
        cases he : d.isEmpty
        · rfl
        · exact absurd ((String.isEmpty_iff d).mp he) hde
      simp [strTruthy, this, strOf, specFiltered]
  refine ⟨?_, ?_, ?_⟩
  · show (if strTruthy device_id then
        sensorData.filter (fun e => e.device_id = strOf device_id)
      else sensorData).length = _
    rw [hfilt]
  · show ((((if strTruthy device_id then
        sensorData.filter (fun e => e.device_id = strOf device_id)
      else sensorData).drop o).take (min l 500)).reverse).length = _
    rw [hfilt, List.length_reverse, List.length_take, List.length_drop]
    omega
  · show (((if strTruthy device_id then
        sensorData.filter (fun e => e.device_id = strOf device_id)
      else sensorData).drop o).take (min l 500)).reverse = _
    rw [hfilt]

/-- C4 witness: the pagination law evaluated on a two-device store with
a DEV1 filter, offset 0 and limit 50. -/
theorem claim_C4_pagination_witness :
    (some "DEV1" : Option String) ≠ some ""
    ∧ ((listReadings [demoReading "DEV1" 1, demoReading "DEV2" 2] (some "DEV1") 0 50).total
        = (specFiltered [demoReading "DEV1" 1, demoReading "DEV2" 2] (some "DEV1")).length
      ∧ (listReadings [demoReading "DEV1" 1, demoReading "DEV2" 2] (some "DEV1") 0 50).data.length
        = min ((specFiltered [demoReading "DEV1" 1, demoReading "DEV2" 2] (some "DEV1")).length - 0)
            (min 50 500)
      ∧ (listReadings [demoReading "DEV1" 1, demoReading "DEV2" 2] (some "DEV1") 0 50).data
        = (((specFiltered [demoReading "DEV1" 1, demoReading "DEV2" 2] (some "DEV1")).drop 0).take
            (min 50 500)).reverse) :=
  ⟨by decide,
   claim_C4_pagination [demoReading "DEV1" 1, demoReading "DEV2" 2] (some "DEV1") 0 50
     (by decide)⟩

/-- Nonempty strings are JS-truthy. -/
theorem strTruthy_of_ne (k : String) (hk : k ≠ "") : strTruthy (some k) = true := by
  cases he : k.isEmpty
  · simp [strTruthy, he]
  · exact absurd ((String.isEmpty_iff k).mp he) hk

/-- C2 counterexample: a successful submit of a valid reading from a
not-yet-registered device appends two connection-log records (INFO for
the auto-registration and SUCCESS), not exactly one. -/
theorem claim_C2_counterexample :
    (submit (some "k") (some "k") demoPayload "ip" "ua" 10 "r" emptyState).logged.length = 2
    ∧ (submit (some "k") (some "k") demoPayload "ip" "ua" 10 "r" emptyState).logged.length
      ≠ 1 := by
  refine ⟨rfl, by decide⟩

/-- C2 amended: every submit call appends at least one and at most
three connection-log records; a failing submit (Unauthenticated or
InvalidPayload) appends exactly one ERROR record, while a successful
submit appends exactly one SUCCESS record for the device, preceded by a
WARNING record exactly when the parsed values are out of physical range
and by an INFO record exactly when the device is auto-registered
(unknown to the registry). -/
theorem claim_C2_amended (apiKeyConfig credential : Option String) (p : Payload)
    (ip ua : String) (now : Nat) (rnd : String) (st : ServerState) :
    ((submit apiKeyConfig credential p ip ua now rnd st).result.isOk = false
      → ∃ e, (submit apiKeyConfig credential p ip ua now rnd st).logged = [e]
          ∧ e.status = "ERROR")
    ∧ ((submit apiKeyConfig credential p ip ua now rnd st).result.isOk = true
      → ∃ tq hq, p.temperature.bind parseFloatJS = some tq
          ∧ p.humidity.bind parseFloatJS = some hq
          ∧ (submit apiKeyConfig credential p ip ua now rnd st).logged
            = (if tq < -50 ∨ 100 < tq ∨ hq < 0 ∨ 100 < hq then
                [mkLog credential now ip ua "WARNING" "Data outside expected ranges"]
              else [])
              ++ (if (List.lookup (strOf p.device_id) st.devices).isNone then
                    [mkLog credential now ip ua "INFO"
                      ("New device registered: " ++ strOf p.device_id)]
                  else [])
              ++ [mkLog credential now ip ua "SUCCESS"
                    ("Data received from " ++ strOf p.device_id)])
    ∧ 1 ≤ (submit apiKeyConfig credential p ip ua now rnd st).logged.length
    ∧ (submit apiKeyConfig credential p ip ua now rnd st).logged.length ≤ 3 := by
  cases hA : strTruthy credential with
  | false =>
    refine ⟨fun _ => ⟨mkLog credential now ip ua "ERROR" "Missing API key",
        by simp [submit, hA], rfl⟩,
      fun hok => absurd hok (by simp [submit, hA, IngestResult.isOk]), ?_, ?_⟩ <;>
      simp [submit, hA]
  | true =>
    by_cases hB : apiKeyConfig = some (strOf credential)
    · cases hC : (!strTruthy p.device_id || !strTruthy p.sensor
          || p.temperature.isNone || p.humidity.isNone) with
      | true =>
        refine ⟨fun _ => ⟨mkLog credential now ip ua "ERROR" "Missing required fields",
            by simp [submit, hA, hB, hC], rfl⟩,
          fun hok => absurd hok (by simp [submit, hA, hB, hC, IngestResult.isOk]), ?_, ?_⟩ <;>
          simp [submit, hA, hB, hC]
      | false =>
        cases hT : p.temperature.bind parseFloatJS with
        | none =>
          refine ⟨fun _ => ⟨mkLog credential now ip ua "ERROR" "Invalid data types",
              by simp [submit, hA, hB, hC, hT], rfl⟩,
            fun hok => absurd hok (by simp [submit, hA, hB, hC, hT, IngestResult.isOk]),
            ?_, ?_⟩ <;>
            simp [submit, hA, hB, hC, hT]
        | some temp =>
          cases hH : p.humidity.bind parseFloatJS with
          | none =>
            refine ⟨fun _ => ⟨mkLog credential now ip ua "ERROR" "Invalid data types",
                by simp [submit, hA, hB, hC, hT, hH], rfl⟩,
              fun hok => absurd hok (by simp [submit, hA, hB, hC, hT, hH, IngestResult.isOk]),
              ?_, ?_⟩ <;>
              simp [submit, hA, hB, hC, hT, hH]
          | some hum =>
            have hfail : ¬ (submit apiKeyConfig credential p ip ua now rnd st).result.isOk
                = false := by
              simp [submit, hA, hB, hC, hT, hH, IngestResult.isOk]
            by_cases hW : temp < -50 ∨ 100 < temp ∨ hum < 0 ∨ 100 < hum
            · cases hL : List.lookup (strOf p.device_id) st.devices with
              | none =>
                refine ⟨fun hok => absurd hok hfail,
                  fun _ => ⟨temp, hum, rfl, rfl,
                    by simp [submit, hA, hB, hC, hT, hH, hW, hL]⟩, ?_, ?_⟩ <;>
                  simp [submit, hA, hB, hC, hT, hH, hW, hL]
              | some dev =>
                refine ⟨fun hok => absurd hok hfail,
                  fun _ => ⟨temp, hum, rfl, rfl,
                    by simp [submit, hA, hB, hC, hT, hH, hW, hL]⟩, ?_, ?_⟩ <;>
                  simp [submit, hA, hB, hC, hT, hH, hW, hL]
            · cases hL : List.lookup (strOf p.device_id) st.devices with
              | none =>
                refine ⟨fun hok => absurd hok hfail,
                  fun _ => ⟨temp, hum, rfl, rfl,
                    by simp [submit, hA, hB, hC, hT, hH, hW, hL]⟩, ?_, ?_⟩ <;>
                  simp [submit, hA, hB, hC, hT, hH, hW, hL]
              | some dev =>
                refine ⟨fun hok => absurd hok hfail,
                  fun _ => ⟨temp, hum, rfl, rfl,
                    by simp [submit, hA, hB, hC, hT, hH, hW, hL]⟩, ?_, ?_⟩ <;>
                  simp [submit, hA, hB, hC, hT, hH, hW, hL]
    · refine ⟨fun _ => ⟨mkLog credential now ip ua "ERROR" "Invalid API key",
          by simp [submit, hA, hB], rfl⟩,
        fun hok => absurd hok (by simp [submit, hA, hB, IngestResult.isOk]), ?_, ?_⟩ <;>
        simp [submit, hA, hB]

/-- C2 witness: the amended law evaluated on both kinds of path — a
failing submit (missing credential) appends exactly one ERROR record,
and a successful in-range submit from an unregistered device appends the
INFO record followed by the SUCCESS record. -/
theorem claim_C2_amended_witness :
    (submit (some "k") none demoPayload "ip" "ua" 0 "r" emptyState).result.isOk = false
    ∧ (∃ e, (submit (some "k") none demoPayload "ip" "ua" 0 "r" emptyState).logged = [e]
        ∧ e.status = "ERROR")
    ∧ (submit (some "k") (some "k") demoPayload "ip" "ua" 10 "r" emptyState).result.isOk = true
    ∧ (∃ tq hq, demoPayload.temperature.bind parseFloatJS = some tq
        ∧ demoPayload.humidity.bind parseFloatJS = some hq
        ∧ (submit (some "k") (some "k") demoPayload "ip" "ua" 10 "r" emptyState).logged
          = (if tq < -50 ∨ 100 < tq ∨ hq < 0 ∨ 100 < hq then
              [mkLog (some "k") 10 "ip" "ua" "WARNING" "Data outside expected ranges"]
            else [])
            ++ (if (List.lookup (strOf demoPayload.device_id) emptyState.devices).isNone then
                  [mkLog (some "k") 10 "ip" "ua" "INFO"
                    ("New device registered: " ++ strOf demoPayload.device_id)]
                else [])
            ++ [mkLog (some "k") 10 "ip" "ua" "SUCCESS"
                  ("Data received from " ++ strOf demoPayload.device_id)]) :=
  ⟨rfl,
   (claim_C2_amended (some "k") none demoPayload "ip" "ua" 0 "r" emptyState).1 rfl,
   rfl,
   (claim_C2_amended (some "k") (some "k") demoPayload "ip" "ua" 10 "r" emptyState).2.1 rfl⟩

/-- C9: when a submit fails (Unauthenticated or InvalidPayload), the
reading store and the device registry are left unchanged — no reading is
appended and no device is auto-registered — and the only state change is
the single connection-log record appended for the failure. -/
theorem claim_C9_failure_state (apiKeyConfig credential : Option String) (p : Payload)
    (ip ua : String) (now : Nat) (rnd : String) (st : ServerState)
    (h : (submit apiKeyConfig credential p ip ua now rnd st).result.isOk = false) :
    (submit apiKeyConfig credential p ip ua now rnd st).state.sensorData = st.sensorData
    ∧ (submit apiKeyConfig credential p ip ua now rnd st).state.devices = st.devices
    ∧ ∃ e, (submit apiKeyConfig credential p ip ua now rnd st).logged = [e]
        ∧ (submit apiKeyConfig credential p ip ua now rnd st).state.connectionLogs
          = record st.connectionLogs e := by
  cases hA : strTruthy credential with
  | false =>
    refine ⟨?_, ?_, mkLog credential now ip ua "ERROR" "Missing API key", ?_, ?_⟩ <;>
      simp [submit, hA, applyLogs]
  | true =>
    by_cases hB : apiKeyConfig = some (strOf credential)
    · cases hC : (!strTruthy p.device_id || !strTruthy p.sensor
          || p.temperature.isNone || p.humidity.isNone) with
      | true =>
        refine ⟨?_, ?_, mkLog credential now ip ua "ERROR" "Missing required fields", ?_, ?_⟩ <;>
          simp [submit, hA, hB, hC, applyLogs]
      | false =>
        cases hT : p.temperature.bind parseFloatJS with
        | none =>
          refine ⟨?_, ?_, mkLog credential now ip ua "ERROR" "Invalid data types", ?_, ?_⟩ <;>
            simp [submit, hA, hB, hC, hT, applyLogs]
        | some temp =>
          cases hH : p.humidity.bind parseFloatJS with
          | none =>
            refine ⟨?_, ?_, mkLog credential now ip ua "ERROR" "Invalid data types", ?_, ?_⟩ <;>
              simp [submit, hA, hB, hC, hT, hH, applyLogs]
          | some hum =>
            exact absurd h (by simp [submit, hA, hB, hC, hT, hH, IngestResult.isOk])
    · refine ⟨?_, ?_, mkLog credential now ip ua "ERROR" "Invalid API key", ?_, ?_⟩ <;>
        simp [submit, hA, hB, applyLogs]

/-- C9 witness: a submit with a wrong credential changes neither the
reading store nor the registry and appends a single log record. -/
theorem claim_C9_failure_state_witness :
    (submit (some "secret123") (some "wrong") demoPayload "ip" "ua" 0 "r" stInit).result.isOk
      = false
    ∧ ((submit (some "secret123") (some "wrong") demoPayload "ip" "ua" 0 "r" stInit).state.sensorData
        = stInit.sensorData
      ∧ (submit (some "secret123") (some "wrong") demoPayload "ip" "ua" 0 "r" stInit).state.devices
        = stInit.devices
      ∧ ∃ e, (submit (some "secret123") (some "wrong") demoPayload "ip" "ua" 0 "r" stInit).logged
            = [e]
          ∧ (submit (some "secret123") (some "wrong") demoPayload "ip" "ua" 0 "r" stInit).state.connectionLogs
            = record stInit.connectionLogs e) :=
  ⟨rfl, claim_C9_failure_state (some "secret123") (some "wrong") demoPayload "ip" "ua" 0 "r"
    stInit rfl⟩

/-- C8: devices are immutable once created — for every device id already
present in the registry, any later submit (registration attempt or
reading, with any arguments) leaves that id mapped to the same stored
metadata; no modelled operation deletes a device. -/
theorem claim_C8_registry_immutable (apiKeyConfig credential : Option String) (p : Payload)
    (ip ua : String) (now : Nat) (rnd : String) (st : ServerState)
    (idv : String) (d : Device)
    (h : List.lookup idv st.devices = some d) :
    List.lookup idv (submit apiKeyConfig credential p ip ua now rnd st).state.devices
      = some d := by
  cases hA : strTruthy credential with
  | false => simpa [submit, hA, applyLogs] using h
  | true =>
    by_cases hB : apiKeyConfig = some (strOf credential)
    · cases hC : (!strTruthy p.device_id || !strTruthy p.sensor
          || p.temperature.isNone || p.humidity.isNone) with
      | true => simpa [submit, hA, hB, hC, applyLogs] using h
      | false =>
        cases hT : p.temperature.bind parseFloatJS with
        | none => simpa [submit, hA, hB, hC, hT, applyLogs] using h
        | some temp =>
          cases hH : p.humidity.bind parseFloatJS with
          | none => simpa [submit, hA, hB, hC, hT, hH, applyLogs] using h
          | some hum =>
            cases hL : List.lookup (strOf p.device_id) st.devices with
            | some dev => simpa [submit, hA, hB, hC, hT, hH, hL] using h
            | none =>
              have hne : (idv == strOf p.device_id) = false := by
                cases he : idv == strOf p.device_id
                · rfl
                · rw [eq_of_beq he] at h
                  rw [h] at hL
                  exact absurd hL (by simp)
              simp [submit, hA, hB, hC, hT, hH, hL, List.lookup, hne, h]
    · simpa [submit, hA, hB, applyLogs] using h

/-- C8 witness: re-submitting a reading for the pre-registered device
DEADBEEF0001 with a different device_name leaves its stored metadata
unchanged. -/
theorem claim_C8_registry_immutable_witness :
    List.lookup "DEADBEEF0001" stInit.devices
      = some { name := "Greenhouse_Node_1", location := "Greenhouse-01",
               registeredAt := 5, autoRegistered := false }
    ∧ List.lookup "DEADBEEF0001"
        (submit (some "k") (some "k")
          { demoPayload with device_id := some "DEADBEEF0001",
                             device_name := some "Other_Name" }
          "ip" "ua" 9 "r" stInit).state.devices
      = some { name := "Greenhouse_Node_1", location := "Greenhouse-01",
               registeredAt := 5, autoRegistered := false } :=
  ⟨rfl, claim_C8_registry_immutable (some "k") (some "k")
    { demoPayload with device_id := some "DEADBEEF0001", device_name := some "Other_Name" }
    "ip" "ua" 9 "r" stInit "DEADBEEF0001" _ rfl⟩

/-- C6 counterexample: a payload whose device_id is present but the
empty string is rejected with InvalidPayload even though no field is
missing and both numbers parse — the handler checks device_id and sensor
by JS truthiness, not presence, refuting the claimed iff. -/
theorem claim_C6_counterexample :
    (submit (some "k") (some "k") { demoPayload with device_id := some "" }
        "ip" "ua" 0 "r" emptyState).result
      = IngestResult.invalidPayload "Missing required fields"
    ∧ specInvalidCond { demoPayload with device_id := some "" } = false := by
  refine ⟨rfl, rfl⟩

/-- C6 amended: with auth passing, submit fails with InvalidPayload if
and only if device_id or sensor is missing or empty (JS truthiness),
temperature or humidity is missing, or temperature or humidity fails to
parse as a number; temperature or humidity equal to 0 still passes the
presence check.  Any InvalidPayload result carries HTTP status 400. -/
theorem claim_C6_amended (k : String) (p : Payload) (ip ua : String) (now : Nat)
    (rnd : String) (st : ServerState) (hk : k ≠ "") :
    (submit (some k) (some k) p ip ua now rnd st).result.isInvalid = invalidCond p
    ∧ ((submit (some k) (some k) p ip ua now rnd st).result.isInvalid = true
        → (submit (some k) (some k) p ip ua now rnd st).result.status = 400) := by
  have hA : strTruthy (some k) = true := strTruthy_of_ne k hk
  have hB : (some k : Option String) = some (strOf (some k)) := rfl
  have hmain : (submit (some k) (some k) p ip ua now rnd st).result.isInvalid
      = invalidCond p := by
    cases hC : (!strTruthy p.device_id || !strTruthy p.sensor
        || p.temperature.isNone || p.humidity.isNone) with
    | true =>
      have : invalidCond p = true := by
        simp only [invalidCond]
        simp only [Bool.or_eq_true] at hC ⊢
        tauto
      simp [submit, hA, ← hB, hC, IngestResult.isInvalid, this]
    | false =>
      cases hT : p.temperature.bind parseFloatJS with
      | none =>
        have : invalidCond p = true := by
          simp only [invalidCond]
          simp [hT]
        simp [submit, hA, ← hB, hC, hT, IngestResult.isInvalid, this]
      | some temp =>
        cases hH : p.humidity.bind parseFloatJS with
        | none =>
          have : invalidCond p = true := by
            simp only [invalidCond]
            simp [hH]
          simp [submit, hA, ← hB, hC, hT, hH, IngestResult.isInvalid, this]
        | some hum =>
          have : invalidCond p = false := by
            simp only [invalidCond, Bool.or_eq_false_iff] at hC ⊢
            exact ⟨⟨⟨⟨⟨hC.1.1.1, hC.1.1.2⟩, hC.1.2⟩, hC.2⟩, by simp [hT]⟩, by simp [hH]⟩
          simp [submit, hA, ← hB, hC, hT, hH, IngestResult.isInvalid, this]
  refine ⟨hmain, fun hinv => ?_⟩
  cases hr : (submit (some k) (some k) p ip ua now rnd st).result with
  | unauthenticated m => rw [hr] at hinv; exact absurd hinv (by simp [IngestResult.isInvalid])
  | invalidPayload m => simp [IngestResult.status]
  | success a b c => rw [hr] at hinv; exact absurd hinv (by simp [IngestResult.isInvalid])

/-- C6 witness: the amended characterisation evaluated on a payload with
temperature and humidity both 0 (not missing, parse fine): the submit
succeeds, matching invalidCond = false. -/
theorem claim_C6_amended_witness :
    ("secret123" : String) ≠ ""
    ∧ (submit (some "secret123") (some "secret123")
        { demoPayload with temperature := some (.jnum 0), humidity := some (.jnum 0) }
        "ip" "ua" 0 "r" emptyState).result.isInvalid
      = invalidCond
        { demoPayload with temperature := some (.jnum 0), humidity := some (.jnum 0) } :=
  ⟨by decide,
   (claim_C6_amended "secret123"
     { demoPayload with temperature := some (.jnum 0), humidity := some (.jnum 0) }
     "ip" "ua" 0 "r" emptyState (by decide)).1⟩

/-- C7 counterexample: with secret "secret123" configured, a credential
that is present but empty is answered with "Missing API key" (the
handler tests the header by JS truthiness), not "Invalid API key" as the
claim requires for any present-but-wrong credential. -/
theorem claim_C7_counterexample :
    (submit (some "secret123") (some "") demoPayload "ip" "ua" 0 "r" emptyState).result
      = IngestResult.unauthenticated "Missing API key"
    ∧ (submit (some "secret123") (some "") demoPayload "ip" "ua" 0 "r" emptyState).result
      ≠ IngestResult.unauthenticated "Invalid API key"
    ∧ (some "" : Option String) ≠ none
    ∧ ("" : String) ≠ "secret123" := by
  refine ⟨rfl, by decide, by decide, by decide⟩

/-- C7 amended: with a shared secret configured, a submit with a missing
or empty credential fails 401 logging "Missing API key" (for every
payload — the auth check runs before field validation and
short-circuits); a nonempty credential different from the secret fails
401 with "Invalid API key" (again for every payload); the exact secret
with a valid payload succeeds with 200. -/
theorem claim_C7_amended (k c : String) (p : Payload) (ip ua : String) (now : Nat)
    (rnd : String) (st : ServerState) :
    ((submit (some k) none p ip ua now rnd st).result
        = IngestResult.unauthenticated "Missing API key"
      ∧ (submit (some k) none p ip ua now rnd st).result.status = 401)
    ∧ (c ≠ "" → c ≠ k →
        (submit (some k) (some c) p ip ua now rnd st).result
          = IngestResult.unauthenticated "Invalid API key"
        ∧ (submit (some k) (some c) p ip ua now rnd st).result.status = 401)
    ∧ (k ≠ "" → strTruthy p.device_id = true → strTruthy p.sensor = true →
        ∀ tv hv tq hq, p.temperature = some tv → parseFloatJS tv = some tq →
          p.humidity = some hv → parseFloatJS hv = some hq →
          (submit (some k) (some k) p ip ua now rnd st).result
            = IngestResult.success (toString now ++ rnd) (strOf p.device_id) now
          ∧ (submit (some k) (some k) p ip ua now rnd st).result.status = 200) := by
  refine ⟨⟨rfl, rfl⟩, ?_, ?_⟩
  · intro hc hck
    have hA : strTruthy (some c) = true := strTruthy_of_ne c hc
    have hne : (some k : Option String) ≠ some (strOf (some c)) := by
      simp [strOf]
      exact fun hkc => hck hkc.symm
    constructor <;> simp [submit, hA, hne, IngestResult.status]
  · intro hk hdev hsen tv hv tq hq ht1 ht2 hh1 hh2
    have hA : strTruthy (some k) = true := strTruthy_of_ne k hk
    have hT : p.temperature.bind parseFloatJS = some tq := by
      rw [ht1]; simpa using ht2
    have hH : p.humidity.bind parseFloatJS = some hq := by
      rw [hh1]; simpa using hh2
    have hC : (!strTruthy p.device_id || !strTruthy p.sensor
        || p.temperature.isNone || p.humidity.isNone) = false := by
      simp [hdev, hsen, ht1, hh1]
    constructor <;> simp [submit, hA, hC, hT, hH, IngestResult.status, strOf]

/-- C7 witness: the auth scenario with secret "secret123": a missing
credential gives 401 "Missing API key", the wrong value "wrong" gives
401 "Invalid API key", and the exact secret with a valid payload
succeeds with 200. -/
theorem claim_C7_amended_witness :
    ((submit (some "secret123") none demoPayload "ip" "ua" 7 "r" emptyState).result
        = IngestResult.unauthenticated "Missing API key"
      ∧ (submit (some "secret123") none demoPayload "ip" "ua" 7 "r" emptyState).result.status
        = 401)
    ∧ ((submit (some "secret123") (some "wrong") demoPayload "ip" "ua" 7 "r" emptyState).result
        = IngestResult.unauthenticated "Invalid API key"
      ∧ (submit (some "secret123") (some "wrong") demoPayload "ip" "ua" 7 "r" emptyState).result.status
        = 401)
    ∧ ((submit (some "secret123") (some "secret123") demoPayload "ip" "ua" 7 "r" emptyState).result
        = IngestResult.success (toString 7 ++ "r") (strOf demoPayload.device_id) 7
      ∧ (submit (some "secret123") (some "secret123") demoPayload "ip" "ua" 7 "r" emptyState).result.status
        = 200) := by
  have h := claim_C7_amended "secret123" "wrong" demoPayload "ip" "ua" 7 "r" emptyState
  exact ⟨h.1, h.2.1 (by decide) (by decide),
    h.2.2 (by decide) rfl rfl (.jnum 22) (.jnum 55) 22 55 rfl rfl rfl rfl⟩

/-- C10: a device-supplied ts that is present but falsy (0, the empty
string or null) is discarded and the stored reading's timestamp falls
back to the server receipt time — ts is tested by JS truthiness, unlike
temperature and humidity whose 0 values are accepted. -/
theorem claim_C10_ts_truthiness (k : String) (p : Payload) (ip ua : String)
    (now : Nat) (rnd : String) (st : ServerState) (v : JsVal)
    (hk : k ≠ "") (hdev : strTruthy p.device_id = true) (hsen : strTruthy p.sensor = true)
    (tv hv : JsVal) (tq hq : ℚ)
    (ht1 : p.temperature = some tv) (ht2 : parseFloatJS tv = some tq)
    (hh1 : p.humidity = some hv) (hh2 : parseFloatJS hv = some hq)
    (hts : p.ts = some v) (hfalsy : v.truthy = false) :
    ∃ e : Reading,
      (submit (some k) (some k) p ip ua now rnd st).state.sensorData
        = pushCap 1000 st.sensorData e
      ∧ e.timestamp = TsVal.server now
      ∧ e.received_at = now := by
  have hA : strTruthy (some k) = true := strTruthy_of_ne k hk
  have hT : p.temperature.bind parseFloatJS = some tq := by
    rw [ht1]; simpa using ht2
  have hH : p.humidity.bind parseFloatJS = some hq := by
    rw [hh1]; simpa using hh2
  have hC : (!strTruthy p.device_id || !strTruthy p.sensor
      || p.temperature.isNone || p.humidity.isNone) = false := by
    simp [hdev, hsen, ht1, hh1]
  simp [submit, hA, hC, hT, hH, hts, hfalsy, strOf]
  exact ⟨_, rfl, rfl, rfl⟩

/-- C10 witness: a valid payload carrying ts = 0 (and temperature and
humidity 0, which pass validation) is stored with the server receipt
time as its timestamp. -/
theorem claim_C10_ts_truthiness_witness :
    JsVal.truthy (.jnum 0) = false
    ∧ ∃ e : Reading,
        (submit (some "secret123") (some "secret123")
            { demoPayload with temperature := some (.jnum 0), humidity := some (.jnum 0),
                               ts := some (.jnum 0) }
            "ip" "ua" 42 "r" emptyState).state.sensorData
          = pushCap 1000 emptyState.sensorData e
        ∧ e.timestamp = TsVal.server 42
        ∧ e.received_at = 42 :=
  ⟨rfl, claim_C10_ts_truthiness "secret123"
    { demoPayload with temperature := some (.jnum 0), humidity := some (.jnum 0),
                       ts := some (.jnum 0) }
    "ip" "ua" 42 "r" emptyState (.jnum 0) (by decide) rfl rfl
    (.jnum 0) (.jnum 0) 0 0 rfl rfl rfl rfl rfl rfl⟩

end NodeMcu
